import Mathlib

/-!
Verification of the AgentMail ESP32 REST client (`src/agentmail.cc`,
`src/agentmail_types.h`) against its natural-language specification.

The development shallowly embeds the pieces of the C++ source the claims
are about:
* the HTTP response accumulator of `http_event_handler` (growable buffer
  with a 32 KiB ceiling),
* the transport/status-code to `agentmail_err_t` classification performed
  by `perform_http_request`,
* the cJSON-based record decoding of the inbox and message operations,
* the `*_free` memory-release operations.

Buffers are byte lists; C `char *` string fields are `Option String`
(`none` models the NULL pointer); machine sizes stay in `Nat` (the device
is 32-bit and every quantity involved is far below `2 ^ 32`, so no wrap
can occur at the values the source manipulates).  Out-of-bounds writes by
`memcpy`/the terminator store cannot be expressed inside a C buffer model
of just the content, so the accumulator state carries an `oob` flag that
records whether any store targeted an index `≥ capacity`.
-/

namespace Agentmail

/-- Constant `MAX_HTTP_RESPONSE_SIZE` from `agentmail.cc` line 22 (32 KiB). -/
def MAX_HTTP_RESPONSE_SIZE : Nat := 32768

/-- Initial buffer allocation in `perform_http_request` line 114
(`calloc(1, 4096)`). -/
def INITIAL_CAPACITY : Nat := 4096

/-- Constant `ESP_OK` from esp-idf (`esp_err.h`). -/
def ESP_OK : Int := 0

/-- Constant `ESP_ERR_TIMEOUT` from esp-idf (`esp_err.h`, value `0x107`). -/
def ESP_ERR_TIMEOUT : Int := 263

/-- The `http_response_t` struct of `agentmail.cc` lines 38-42.
`data` is the byte content of the region `[0, size)` of the C buffer
(`size = data.length`); `capacity` is the allocated capacity; `oob`
additionally records whether any store (the `memcpy` of a chunk or the
zero-terminator store) targeted an index `≥ capacity`, i.e. outside the
allocation — such a store is undefined behaviour in the C source. -/
structure HttpResponse where
  data : List Nat
  capacity : Nat
  oob : Bool
  deriving Repr, DecidableEq

/-- Accumulator state right after the `calloc(1, 4096)` initialisation in
`perform_http_request` (lines 114-119): empty content, capacity 4096. -/
def accumInit : HttpResponse :=
  { data := [], capacity := INITIAL_CAPACITY, oob := false }

/-- One `HTTP_EVENT_ON_DATA` step of `http_event_handler`
(`agentmail.cc` lines 51-76) for a non-chunked response, parameterised by
whether the `realloc` call succeeds (`allocOk`; `realloc` returning NULL
is modelled by `allocOk = false`).

Mirrors the source exactly:
* `new_size = size + data_len`;
* if `new_size >= capacity`: `new_capacity = min(new_size * 2, MAX)`;
  if `new_capacity <= capacity` the chunk is dropped ("Response too
  large"); otherwise `realloc` — on failure the chunk is dropped
  ("Failed to grow response buffer"), on success capacity becomes
  `new_capacity`;
* then `memcpy` of the chunk at offset `size`, `size += data_len`, and
  the terminator store `buffer[size] = 0`.  The stores of an append touch
  indices `size .. new_size`; they are all within the allocation iff
  `new_size < capacity` (after any growth), which is what the `oob` flag
  tracks. -/
def accumStepA (r : HttpResponse) (chunk : List Nat) (allocOk : Bool) :
    HttpResponse :=
  let new_size := r.data.length + chunk.length
  if new_size ≥ r.capacity then
    let new_capacity :=
      if new_size * 2 > MAX_HTTP_RESPONSE_SIZE then MAX_HTTP_RESPONSE_SIZE
      else new_size * 2
    if new_capacity ≤ r.capacity then
      r
    else if allocOk = false then
      r
    else
      { data := r.data ++ chunk, capacity := new_capacity,
        oob := r.oob || decide (new_size ≥ new_capacity) }
  else
    { data := r.data ++ chunk, capacity := r.capacity,
      oob := r.oob || decide (new_size ≥ r.capacity) }

/-- Specialisation of `accumStepA` to the normal case where every `realloc` succeeds. -/
def accumStep (r : HttpResponse) (chunk : List Nat) : HttpResponse :=
  accumStepA r chunk true

/-- The full `http_event_handler` view of one event (`agentmail.cc`
lines 47-85): a chunked-encoded response is ignored entirely, otherwise
the accumulator step runs; the handler returns `ESP_OK` on every path. -/
def http_event_handler (r : HttpResponse) (isChunked : Bool)
    (chunk : List Nat) (allocOk : Bool) : HttpResponse × Int :=
  if isChunked then (r, ESP_OK)
  else (accumStepA r chunk allocOk, ESP_OK)

/-- Processing a whole sequence of non-chunked data events from the
initial state, with every `realloc` succeeding. -/
def accumRun (chunks : List (List Nat)) : HttpResponse :=
  chunks.foldl accumStep accumInit

/-- The `agentmail_err_t` enumeration (`agentmail_types.h` lines 14-27). -/
inductive AgentmailErr where
  | none | invalidArg | noMem | http | auth | parse
  | notFound | rateLimit | server | network | timeout | other
  deriving Repr, DecidableEq

/-- The HTTP status-code to error mapping of `perform_http_request`
(`agentmail.cc` lines 181-194), applied when the transport succeeded.
The status code is the C `int` returned by
`esp_http_client_get_status_code`. -/
def map_status_code (status_code : Int) : AgentmailErr :=
  if 200 ≤ status_code ∧ status_code < 300 then .none
  else if status_code = 401 ∨ status_code = 403 then .auth
  else if status_code = 404 then .notFound
  else if status_code = 429 then .rateLimit
  else if 500 ≤ status_code then .server
  else .other

/-- Outcome classification of `perform_http_request` (`agentmail.cc`
lines 166-195): `err` is the `esp_err_t` returned by
`esp_http_client_perform`; when it is not `ESP_OK` the result is
`timeout` for `ESP_ERR_TIMEOUT` and `network` otherwise, and the status
mapping is applied only when the transport succeeded. -/
def classify_http_outcome (err : Int) (status_code : Int) : AgentmailErr :=
  if err ≠ ESP_OK then
    if err = ESP_ERR_TIMEOUT then .timeout else .network
  else map_status_code status_code

/-!  cJSON values.  The JSON library is external to the repository; the
client only uses parsed trees through `cJSON_GetObjectItem`,
`cJSON_IsString`/`IsObject`/`IsArray`/`IsBool`/`IsNumber`,
`cJSON_GetArrayItem` and `cJSON_PrintUnformatted`, which are modelled
below.  Object field lookup is by first matching key (all keys used by
the client are fixed lowercase literals, so cJSON's case-insensitive
lookup coincides with exact matching on them). -/

/-- A parsed cJSON value. -/
inductive Json where
  | null
  | bool (b : Bool)
  | num (n : Int)
  | str (s : String)
  | arr (items : List Json)
  | obj (fields : List (String × Json))

/-- Lookup `cJSON_GetObjectItem`: `none` models the NULL result (absent field or
non-object receiver). -/
def getObjectItem (j : Json) (key : String) : Option Json :=
  match j with
  | .obj fields => (fields.find? (fun p => p.1 = key)).map Prod.snd
  | _ => none

/-- Predicate `cJSON_IsArray` (false on NULL is handled at use sites). -/
def Json.isArray : Json → Bool
  | .arr _ => true
  | _ => false

/-- The idiom `if (cJSON_IsString(x)) field = strdup(x->valuestring);`
applied to a possibly-NULL `cJSON *`: the duplicated string when the item
exists and is a string, `none` (field stays NULL) otherwise. -/
def asString : Option Json → Option String
  | some (.str s) => some s
  | _ => Option.none

/-- The idiom `if (cJSON_IsBool(x)) field = cJSON_IsTrue(x);` with a `false`
(zeroed) default. -/
def asBool : Option Json → Bool
  | some (.bool b) => b
  | _ => false

mutual

/-- Printer `cJSON_PrintUnformatted` (external library; string escaping is not
modelled — no claim depends on the rendered text). -/
def Json.print : Json → String
  | .null => "null"
  | .bool true => "true"
  | .bool false => "false"
  | .num n => toString n
  | .str s => "\"" ++ s ++ "\""
  | .arr items => "[" ++ Json.printItems items ++ "]"
  | .obj fields => "\x7b" ++ Json.printFields fields ++ "\x7d"

/-- Comma-separated rendering of array items. -/
def Json.printItems : List Json → String
  | [] => ""
  | [x] => Json.print x
  | x :: xs => Json.print x ++ "," ++ Json.printItems xs

/-- Comma-separated rendering of object fields. -/
def Json.printFields : List (String × Json) → String
  | [] => ""
  | [(k, v)] => "\"" ++ k ++ "\":" ++ Json.print v
  | (k, v) :: xs => "\"" ++ k ++ "\":" ++ Json.print v ++ "," ++ Json.printFields xs

end

/-- Struct `agentmail_inbox_t` (`agentmail_types.h` lines 48-54).  Each `char *`
field is `Option String`; `none` is the NULL pointer left by the
`memset(inbox, 0, ...)` that every operation performs on entry. -/
structure AgentmailInbox where
  inbox_id : Option String
  name : Option String
  email_address : Option String
  created_at : Option String
  metadata : Option String
  deriving Repr, DecidableEq

/-- The all-NULL inbox record produced by `memset(inbox, 0, ...)`. -/
def emptyInbox : AgentmailInbox :=
  { inbox_id := none, name := none, email_address := none,
    created_at := none, metadata := none }

/-- Struct `agentmail_message_t` (`agentmail_types.h` lines 59-71).
`attachments`/`attachment_count` are the `char **` array and its length:
`none` models a NULL array pointer. -/
structure AgentmailMessage where
  message_id : Option String
  thread_id : Option String
  «from» : Option String
  «to» : Option String
  subject : Option String
  body_text : Option String
  body_html : Option String
  timestamp : Option String
  is_read : Bool
  attachments : Option (List String)
  deriving Repr, DecidableEq

/-- The all-zero message record produced by `memset(message, 0, ...)`. -/
def emptyMessage : AgentmailMessage :=
  { message_id := none, thread_id := none, «from» := none, «to» := none,
    subject := none, body_text := none, body_html := none,
    timestamp := none, is_read := false, attachments := none }

/-- Struct `agentmail_inbox_list_t` (`agentmail_types.h` lines 86-90): `inboxes`
is the `agentmail_inbox_t *` array (`none` = NULL) and `count` its
length field. -/
structure AgentmailInboxList where
  inboxes : Option (List AgentmailInbox)
  count : Nat
  next_cursor : Option String
  deriving Repr, DecidableEq

/-- The all-zero inbox list produced by `memset`. -/
def emptyInboxList : AgentmailInboxList :=
  { inboxes := none, count := 0, next_cursor := none }

/-- Struct `agentmail_message_list_t` (`agentmail_types.h` lines 76-81). -/
structure AgentmailMessageList where
  messages : Option (List AgentmailMessage)
  count : Nat
  next_cursor : Option String
  total : Int
  deriving Repr, DecidableEq

/-- The all-zero message list produced by `memset`. -/
def emptyMessageList : AgentmailMessageList :=
  { messages := none, count := 0, next_cursor := none, total := 0 }

/-- The field-extraction block shared by `agentmail_inbox_create`
(`agentmail.cc` lines 316-341) and `agentmail_inbox_get` (lines 389-414):
each named field is copied when present with the expected JSON type,
left NULL otherwise; `metadata` additionally accepts a nested object,
which is re-serialised with `cJSON_PrintUnformatted`. -/
def decode_inbox (j : Json) : AgentmailInbox :=
  { inbox_id := asString (getObjectItem j "inbox_id"),
    email_address := asString (getObjectItem j "address"),
    name := asString (getObjectItem j "name"),
    created_at := asString (getObjectItem j "created_at"),
    metadata :=
      match getObjectItem j "metadata" with
      | some (.str s) => some s
      | some (.obj fields) => some (Json.print (.obj fields))
      | _ => none }

/-- The field-extraction block of `agentmail_message_get`
(`agentmail.cc` lines 844-862).  The C code never populates
`attachments` from the response, so it stays NULL. -/
def decode_message_get (j : Json) : AgentmailMessage :=
  { message_id := asString (getObjectItem j "message_id"),
    thread_id := asString (getObjectItem j "thread_id"),
    «from» := asString (getObjectItem j "from"),
    «to» := asString (getObjectItem j "to"),
    subject := asString (getObjectItem j "subject"),
    body_text := asString (getObjectItem j "text"),
    body_html := asString (getObjectItem j "html"),
    timestamp := asString (getObjectItem j "created_at"),
    is_read := asBool (getObjectItem j "is_read"),
    attachments := none }

/-- The per-element extraction of the `agentmail_inbox_list` loop
(`agentmail.cc` lines 474-491): only `inbox_id`, `address`, `name` and
`created_at` are extracted — the loop has no `metadata` case. -/
def decode_inbox_list_item (j : Json) : AgentmailInbox :=
  { inbox_id := asString (getObjectItem j "inbox_id"),
    email_address := asString (getObjectItem j "address"),
    name := asString (getObjectItem j "name"),
    created_at := asString (getObjectItem j "created_at"),
    metadata := none }

/-- The per-element extraction of the `agentmail_messages_get` loop
(`agentmail.cc` lines 762-784).  (`labels` is looked up on line 774 but
never used.) -/
def decode_message_list_item (j : Json) : AgentmailMessage :=
  { message_id := asString (getObjectItem j "message_id"),
    thread_id := asString (getObjectItem j "thread_id"),
    «from» := asString (getObjectItem j "from"),
    «to» := asString (getObjectItem j "to"),
    subject := asString (getObjectItem j "subject"),
    body_text := asString (getObjectItem j "text"),
    body_html := asString (getObjectItem j "html"),
    timestamp := asString (getObjectItem j "created_at"),
    is_read := asBool (getObjectItem j "is_read"),
    attachments := none }

/-- The collection-selection idiom shared by `agentmail_inbox_list`
(`agentmail.cc` lines 461-465) and `agentmail_messages_get`
(lines 749-753):
`cJSON *data = cJSON_GetObjectItem(res_json, key);
 if (!data || !cJSON_IsArray(data)) data = res_json;`. -/
def selectCollection (j : Json) (key : String) : Json :=
  match getObjectItem j key with
  | some d => if d.isArray then d else j
  | none => j

/-- The decode tail of `agentmail_inbox_list` (`agentmail.cc`
lines 460-503), given a successfully parsed response value: select the
`"inboxes"` collection (falling back to the root), decode each element
with the list-item rules when the selection is an array with at least one
element (`calloc` success assumed), then pick up `next_page_token`.
When the selection is not an array, or is empty, the zeroed list stands
(`inboxes` stays NULL, `count` 0). -/
def agentmail_inbox_list_decode (j : Json) : AgentmailInboxList :=
  let data := selectCollection j "inboxes"
  let pair : Option (List AgentmailInbox) × Nat :=
    match data with
    | .arr items =>
        if items.length > 0 then
          (some (items.map decode_inbox_list_item), items.length)
        else (none, 0)
    | _ => (none, 0)
  { inboxes := pair.1, count := pair.2,
    next_cursor := asString (getObjectItem j "next_page_token") }

/-- The decode tail of `agentmail_messages_get` (`agentmail.cc`
lines 749-803): select the `"messages"` collection (falling back to the
root), decode each element, then pick up `next_page_token` and `count`
(`if (cJSON_IsNumber(count)) messages->total = count->valueint`). -/
def agentmail_messages_get_decode (j : Json) : AgentmailMessageList :=
  let data := selectCollection j "messages"
  let pair : Option (List AgentmailMessage) × Nat :=
    match data with
    | .arr items =>
        if items.length > 0 then
          (some (items.map decode_message_list_item), items.length)
        else (none, 0)
    | _ => (none, 0)
  { messages := pair.1, count := pair.2,
    next_cursor := asString (getObjectItem j "next_page_token"),
    total :=
      match getObjectItem j "count" with
      | some (.num n) => n
      | _ => 0 }

/-- The post-request tail of `agentmail_inbox_create` (`agentmail.cc`
lines 307-349) and `agentmail_inbox_get` (lines 381-417): `parsed` is the
`cJSON_Parse` result on the accumulated body (`none` = parse failure).
On parse failure the call returns `AGENTMAIL_ERR_PARSE` with the record
still zeroed; otherwise the fields are extracted best-effort and the call
returns `AGENTMAIL_ERR_NONE` unconditionally. -/
def agentmail_inbox_decode_result (parsed : Option Json) :
    AgentmailErr × AgentmailInbox :=
  match parsed with
  | none => (.parse, emptyInbox)
  | some j => (.none, decode_inbox j)

/-- The post-request tail of `agentmail_message_get` (`agentmail.cc`
lines 836-865), analogous to `agentmail_inbox_decode_result`. -/
def agentmail_message_get_result (parsed : Option Json) :
    AgentmailErr × AgentmailMessage :=
  match parsed with
  | none => (.parse, emptyMessage)
  | some j => (.none, decode_message_get j)

/-- The post-request tail of `agentmail_send` (`agentmail.cc`
lines 677-691), reached when `perform_http_request` returned
`AGENTMAIL_ERR_NONE`.  `outGiven` is whether the caller passed a non-NULL
`message_id` out-pointer; `parsed` is the `cJSON_Parse` result.  The
second component is the value written through the out-pointer (`none` =
the pointer is left unwritten).  The function returns
`AGENTMAIL_ERR_NONE` on every path — a parse failure or a missing/
non-string `message_id` field is not an error here. -/
def agentmail_send_tail (outGiven : Bool) (parsed : Option Json) :
    AgentmailErr × Option String :=
  if outGiven then
    match parsed with
    | none => (.none, none)
    | some j =>
        match getObjectItem j "message_id" with
        | some (.str s) => (.none, some s)
        | _ => (.none, none)
  else (.none, none)

/-- The post-request tail of `agentmail_send_reply` (`agentmail.cc`
lines 994-1008) — textually the same logic as `agentmail_send_tail`,
with `reply_message_id` as the out-pointer. -/
def agentmail_send_reply_tail (outGiven : Bool) (parsed : Option Json) :
    AgentmailErr × Option String :=
  if outGiven then
    match parsed with
    | none => (.none, none)
    | some j =>
        match getObjectItem j "message_id" with
        | some (.str s) => (.none, some s)
        | _ => (.none, none)
  else (.none, none)

/-!  Free operations (`agentmail.cc` lines 1053-1113).  Each takes the
possibly-NULL struct pointer.  The result is the struct state after the
call (`none` stays NULL) paired with the list of heap strings actually
released by `free` — `free(NULL)` is a no-op and releases nothing, so a
NULL field contributes nothing.  (The container blocks — the element
array of a list — are released as well, guarded by their own NULL checks;
only the owned strings are tracked, which suffices to observe
double-release.) -/

/-- The heap strings a single `agentmail_inbox_free` call passes to
`free` (lines 1056-1060): each non-NULL field, in source order. -/
def inboxFreed (i : AgentmailInbox) : List String :=
  [i.inbox_id, i.name, i.email_address, i.created_at, i.metadata].filterMap id

/-- The heap strings a single `agentmail_message_free` call passes to
`free` (lines 1082-1096): each non-NULL string field, then the
attachment strings when the attachment array is non-NULL. -/
def messageFreed (m : AgentmailMessage) : List String :=
  ([m.message_id, m.thread_id, m.«from», m.«to», m.subject, m.body_text,
    m.body_html, m.timestamp].filterMap id) ++
  (match m.attachments with
   | some xs => xs
   | none => [])

/-- Operation `agentmail_inbox_free` (`agentmail.cc` lines 1053-1063): NULL is a
no-op; otherwise every field is freed and the struct is `memset` to
zero. -/
def agentmail_inbox_free (i : Option AgentmailInbox) :
    Option AgentmailInbox × List String :=
  match i with
  | none => (none, [])
  | some r => (some emptyInbox, inboxFreed r)

/-- Operation `agentmail_message_free` (`agentmail.cc` lines 1079-1099). -/
def agentmail_message_free (m : Option AgentmailMessage) :
    Option AgentmailMessage × List String :=
  match m with
  | none => (none, [])
  | some r => (some emptyMessage, messageFreed r)

/-- Operation `agentmail_inbox_list_free` (`agentmail.cc` lines 1065-1077): NULL is
a no-op; otherwise, when the element array is non-NULL each element is
freed through `agentmail_inbox_free` and the array block is released,
then the cursor is freed and the struct is zeroed. -/
def agentmail_inbox_list_free (l : Option AgentmailInboxList) :
    Option AgentmailInboxList × List String :=
  match l with
  | none => (none, [])
  | some r =>
      let elems :=
        match r.inboxes with
        | some xs => (xs.map inboxFreed).flatten
        | none => []
      (some emptyInboxList, elems ++ r.next_cursor.toList)

/-- Operation `agentmail_message_list_free` (`agentmail.cc` lines 1101-1113). -/
def agentmail_message_list_free (l : Option AgentmailMessageList) :
    Option AgentmailMessageList × List String :=
  match l with
  | none => (none, [])
  | some r =>
      let elems :=
        match r.messages with
        | some xs => (xs.map messageFreed).flatten
        | none => []
      (some emptyMessageList, elems ++ r.next_cursor.toList)

/-! Accumulator lemmas. -/

/-- A step either leaves the state untouched (the chunk is dropped) or
appends the chunk, never shrinking the capacity. -/
theorem accumStepA_data_cases (r : HttpResponse) (c : List Nat) (ok : Bool) :
    accumStepA r c ok = r ∨
      ((accumStepA r c ok).data = r.data ++ c ∧
       r.capacity ≤ (accumStepA r c ok).capacity) := by
  simp only [accumStepA, MAX_HTTP_RESPONSE_SIZE]
  split_ifs <;>
    first
      | exact Or.inl rfl
      | (refine Or.inr ⟨rfl, ?_⟩; simp only; omega)


/-- Under the invariant `size < capacity ≤ ceiling`, a chunk that keeps
the total strictly below the ceiling is appended with every store in
bounds, and the invariant is preserved. -/
theorem accumStep_append (r : HttpResponse) (c : List Nat)
    (h1 : r.data.length < r.capacity)
    (h2 : r.capacity ≤ MAX_HTTP_RESPONSE_SIZE)
    (h3 : r.data.length + c.length < MAX_HTTP_RESPONSE_SIZE) :
    (accumStep r c).data = r.data ++ c ∧ (accumStep r c).oob = r.oob ∧
      (accumStep r c).data.length < (accumStep r c).capacity ∧
      (accumStep r c).capacity ≤ MAX_HTTP_RESPONSE_SIZE := by
  simp only [MAX_HTTP_RESPONSE_SIZE] at h2 h3
  simp only [accumStep, accumStepA, MAX_HTTP_RESPONSE_SIZE]
  split_ifs <;>
    first
      | (exact absurd rfl (by assumption))
      | (exact (by assumption : False).elim)
      | (exfalso; omega)
      | (refine ⟨rfl, ?_, ?_, ?_⟩ <;>
          first
            | (cases hob : r.oob <;>
                simp only [hob, Bool.true_or, Bool.false_or,
                  decide_eq_false_iff_not, ge_iff_le, not_le] <;>
                omega)
            | (simp only [List.length_append]; omega))


/-- No step ever reduces the capacity. -/
theorem accumStepA_capacity_mono (r : HttpResponse) (c : List Nat)
    (ok : Bool) : r.capacity ≤ (accumStepA r c ok).capacity := by
  rcases accumStepA_data_cases r c ok with h | h
  · rw [h]
  · exact h.2

/-- A step that changes the capacity at all grows it strictly, and that
step is an append (the reallocation path). -/
theorem accumStepA_capacity_change (r : HttpResponse) (c : List Nat)
    (ok : Bool) (h : (accumStepA r c ok).capacity ≠ r.capacity) :
    r.capacity < (accumStepA r c ok).capacity ∧
      (accumStepA r c ok).data = r.data ++ c := by
  rcases accumStepA_data_cases r c ok with heq | ⟨hd, hle⟩
  · rw [heq] at h; exact absurd rfl h
  · exact ⟨Nat.lt_of_le_of_ne hle (fun hc => h hc.symm), hd⟩

/-- Capacity is monotone along the rest of a run. -/
theorem foldl_capacity_mono (t : List (List Nat)) :
    ∀ r : HttpResponse, r.capacity ≤ (t.foldl accumStep r).capacity := by
  induction t with
  | nil => intro r; exact Nat.le_refl _
  | cons c cs ih =>
      intro r
      exact Nat.le_trans (accumStepA_capacity_mono r c true) (ih _)

/-- Core accumulation run: from any state satisfying the invariant, if
the incoming bytes keep the total strictly below the ceiling, the run
appends everything in order, keeps every store in bounds, and preserves
the invariant. -/
theorem accumRun_go (chunks : List (List Nat)) :
    ∀ r : HttpResponse, r.data.length < r.capacity →
      r.capacity ≤ MAX_HTTP_RESPONSE_SIZE →
      r.data.length + chunks.flatten.length < MAX_HTTP_RESPONSE_SIZE →
      (chunks.foldl accumStep r).data = r.data ++ chunks.flatten ∧
        (chunks.foldl accumStep r).oob = r.oob ∧
        (chunks.foldl accumStep r).data.length <
          (chunks.foldl accumStep r).capacity ∧
        (chunks.foldl accumStep r).capacity ≤ MAX_HTTP_RESPONSE_SIZE := by
  induction chunks with
  | nil => intro r h1 h2 _; exact ⟨by simp, rfl, h1, h2⟩
  | cons c cs ih =>
      intro r h1 h2 h3
      simp only [List.flatten_cons, List.length_append] at h3
      obtain ⟨hd, ho, hi1, hi2⟩ := accumStep_append r c h1 h2 (by omega)
      simp only [List.foldl_cons]
      obtain ⟨gd, go, gi1, gi2⟩ := ih (accumStep r c) hi1 hi2
        (by rw [hd]; simp only [List.length_append]; omega)
      refine ⟨?_, by rw [go, ho], gi1, gi2⟩
      rw [gd, hd, List.flatten_cons, List.append_assoc]

/-- Whatever happens, the content of a run is the in-order concatenation
of a subsequence of the delivered chunks (dropping is whole-chunk). -/
theorem foldl_data_sublist (chunks : List (List Nat)) :
    ∀ r : HttpResponse, ∃ kept : List (List Nat), kept.Sublist chunks ∧
      (chunks.foldl accumStep r).data = r.data ++ kept.flatten := by
  induction chunks with
  | nil => intro r; exact ⟨[], List.Sublist.refl _, by simp⟩
  | cons c cs ih =>
      intro r
      simp only [List.foldl_cons]
      obtain ⟨kept, hk, hdata⟩ := ih (accumStep r c)
      rcases accumStepA_data_cases r c true with heq | ⟨hd, -⟩
      · have heq2 : accumStep r c = r := heq
        exact ⟨kept, hk.cons c, by rw [hdata, heq2]⟩
      · have hd2 : (accumStep r c).data = r.data ++ c := hd
        refine ⟨c :: kept, hk.cons₂ c, ?_⟩
        rw [hdata, hd2, List.flatten_cons, List.append_assoc]

/-- The out-of-bounds flag is sound: while it is false, the used length
is strictly below the capacity, and the capacity never exceeds the
ceiling. -/
theorem foldl_oob_inv (chunks : List (List Nat)) :
    ∀ r : HttpResponse,
      (r.oob = false → r.data.length < r.capacity) →
      r.capacity ≤ MAX_HTTP_RESPONSE_SIZE →
      ((chunks.foldl accumStep r).oob = false →
        (chunks.foldl accumStep r).data.length <
          (chunks.foldl accumStep r).capacity) ∧
      (chunks.foldl accumStep r).capacity ≤ MAX_HTTP_RESPONSE_SIZE := by
  induction chunks with
  | nil => intro r h1 h2; exact ⟨h1, h2⟩
  | cons c cs ih =>
      intro r h1 h2
      simp only [List.foldl_cons]
      refine ih (accumStep r c) ?_ ?_
      · simp only [accumStep, accumStepA, MAX_HTTP_RESPONSE_SIZE] at *
        split_ifs <;>
          first
            | exact h1
            | (intro hob
               simp only [Bool.or_eq_false_iff, decide_eq_false_iff_not,
                 ge_iff_le, not_le, List.length_append] at hob ⊢
               omega)
      · simp only [accumStep, accumStepA, MAX_HTTP_RESPONSE_SIZE] at *
        split_ifs <;> first | omega | (simp only []; omega)


/-- A chunk that lands the new used length exactly on the ceiling, from a
capacity still below it, is appended with capacity set to the ceiling and
the terminator store out of bounds. -/
theorem accumStep_boundary (r : HttpResponse) (c : List Nat)
    (h1 : r.capacity ≤ r.data.length + c.length)
    (h2 : r.capacity < MAX_HTTP_RESPONSE_SIZE)
    (h3 : r.data.length + c.length = MAX_HTTP_RESPONSE_SIZE) :
    accumStep r c =
      { data := r.data ++ c, capacity := MAX_HTTP_RESPONSE_SIZE,
        oob := true } := by
  simp only [MAX_HTTP_RESPONSE_SIZE] at *
  simp only [accumStep, accumStepA, MAX_HTTP_RESPONSE_SIZE]
  split_ifs <;>
    first
      | (exfalso; omega)
      | (exact (by assumption : False).elim)
      | (rw [h3]; norm_num)





/-- Once an out-of-bounds store happened, the flag stays set. -/
theorem accumStepA_oob_mono (r : HttpResponse) (c : List Nat) (ok : Bool)
    (h : r.oob = true) : (accumStepA r c ok).oob = true := by
  simp only [accumStepA]
  split_ifs <;> simp [h]

/-- When growth is required and `realloc` fails, the step leaves the
state untouched (the chunk is silently dropped). -/
theorem accumStepA_allocFail (r : HttpResponse) (c : List Nat)
    (h : r.capacity ≤ r.data.length + c.length) :
    accumStepA r c false = r := by
  simp only [accumStepA]
  split_ifs <;> first | rfl | omega | (exfalso; omega)

/-- A single chunk of exactly the ceiling size is appended but violates
`used length < capacity` and stores its terminator out of bounds. -/
theorem accumRun_singleton_boundary (c : List Nat)
    (hc : c.length = MAX_HTTP_RESPONSE_SIZE) :
    (accumRun [c]).capacity < (accumRun [c]).data.length + 1 ∧
      (accumRun [c]).oob = true := by
  have hrun : accumRun [c] = accumStep accumInit c := rfl
  have hstep := accumStep_boundary accumInit c
    (by simp only [accumInit, INITIAL_CAPACITY, List.length_nil,
      MAX_HTTP_RESPONSE_SIZE] at *; omega)
    (by simp only [accumInit, INITIAL_CAPACITY, MAX_HTTP_RESPONSE_SIZE]; omega)
    (by simp only [accumInit, List.length_nil]; omega)
  rw [hrun, hstep]
  refine ⟨?_, rfl⟩
  show MAX_HTTP_RESPONSE_SIZE < (accumInit.data ++ c).length + 1
  simp only [List.length_append, accumInit, List.length_nil]
  omega

/-- **C1, counterexample.**  The claim quantifies over totals of at most
the 32768-byte ceiling, but a single chunk of exactly 32768 bytes is
appended with capacity 32768 = used length, so the invariant
`capacity ≥ used length + 1` fails and the zero-terminator store goes out
of bounds (`oob = true`). -/
theorem C1_counterexample :
    [List.replicate MAX_HTTP_RESPONSE_SIZE 1].flatten.length ≤
        MAX_HTTP_RESPONSE_SIZE ∧
      (accumRun [List.replicate MAX_HTTP_RESPONSE_SIZE 1]).capacity <
        (accumRun [List.replicate MAX_HTTP_RESPONSE_SIZE 1]).data.length + 1 ∧
      (accumRun [List.replicate MAX_HTTP_RESPONSE_SIZE 1]).oob = true := by
  have hgen := accumRun_singleton_boundary
    (List.replicate MAX_HTTP_RESPONSE_SIZE 1)
    (by simp only [List.length_replicate])
  exact ⟨by simp only [List.flatten_cons, List.flatten_nil, List.append_nil,
    List.length_replicate, le_refl], hgen.1, hgen.2⟩

/-- **C1 (amended: total strictly below the ceiling).**  For every
sequence of non-chunked chunks whose total size is strictly less than
32768 bytes, the accumulator's final buffer equals the exact byte
concatenation of the chunks, every store (chunk bytes and the zero
terminator written after the used length on each append) stays inside
the allocation (`oob = false`), and `capacity ≥ used length + 1` holds
after every step (every prefix of the run). -/
theorem C1_accumulator_exact_concat (chunks : List (List Nat))
    (h : chunks.flatten.length < MAX_HTTP_RESPONSE_SIZE) :
    (accumRun chunks).data = chunks.flatten ∧
      (accumRun chunks).oob = false ∧
      ∀ p, p <+: chunks →
        (accumRun p).data.length + 1 ≤ (accumRun p).capacity := by
  have base1 : accumInit.data.length < accumInit.capacity := by decide
  have base2 : accumInit.capacity ≤ MAX_HTTP_RESPONSE_SIZE := by decide
  obtain ⟨hd, ho, -, -⟩ := accumRun_go chunks accumInit base1 base2
    (by simp only [accumInit, List.length_nil]; omega)
  refine ⟨by simpa [accumRun, accumInit] using hd,
    by simpa [accumRun, accumInit] using ho, ?_⟩
  intro p hp
  obtain ⟨t, ht⟩ := hp
  have hlen : p.flatten.length ≤ chunks.flatten.length := by
    rw [← ht, List.flatten_append, List.length_append]
    omega
  obtain ⟨-, -, hc', -⟩ := accumRun_go p accumInit base1 base2
    (by simp only [accumInit, List.length_nil]; omega)
  exact hc'

/-- Witness for C1 at the concrete chunk sequence `[[1, 2], [3]]`. -/
theorem C1_accumulator_exact_concat_witness :
    [[1, 2], [3]].flatten.length < MAX_HTTP_RESPONSE_SIZE ∧
      ((accumRun [[1, 2], [3]]).data = [[1, 2], [3]].flatten ∧
        (accumRun [[1, 2], [3]]).oob = false ∧
        (accumRun [[1, 2]]).data.length + 1 ≤ (accumRun [[1, 2]]).capacity) := by
  have h := C1_accumulator_exact_concat [[1, 2], [3]] (by decide)
  exact ⟨by decide, h.1, h.2.1, h.2.2 [[1, 2]] ⟨[[3]], rfl⟩⟩

/-- Two 20000-byte chunks: the first is appended (capacity 32 KiB), the
second is dropped whole. -/
theorem accumRun_two_big (c1 c2 : List Nat)
    (h1 : c1.length = 20000) (h2 : c2.length = 20000) :
    (accumRun [c1, c2]).data = c1 ∧ (accumRun [c1, c2]).oob = false := by
  have hs1 : accumStep accumInit c1 =
      { data := c1, capacity := 32768, oob := false } := by
    simp only [accumStep, accumStepA, accumInit, INITIAL_CAPACITY,
      MAX_HTTP_RESPONSE_SIZE, List.length_nil, h1, List.nil_append]
    norm_num
  have hs2 : accumStep { data := c1, capacity := 32768, oob := false } c2 =
      { data := c1, capacity := 32768, oob := false } := by
    simp only [accumStep, accumStepA, MAX_HTTP_RESPONSE_SIZE, h1, h2]
    norm_num
  have hrun : accumRun [c1, c2] = { data := c1, capacity := 32768, oob := false } := by
    show accumStep (accumStep accumInit c1) c2 = _
    rw [hs1, hs2]
  exact ⟨by rw [hrun], by rw [hrun]⟩

/-- A chunk of exactly ceiling size followed by anything leaves the
out-of-bounds flag set. -/
theorem accumRun_boundary_then_drop (c d : List Nat)
    (hc : c.length = MAX_HTTP_RESPONSE_SIZE) :
    (accumRun [c, d]).oob = true := by
  have hrun : accumRun [c, d] = accumStep (accumStep accumInit c) d := rfl
  rw [hrun]
  apply accumStepA_oob_mono
  have hstep := accumStep_boundary accumInit c
    (by simp only [accumInit, INITIAL_CAPACITY, List.length_nil,
      MAX_HTTP_RESPONSE_SIZE] at *; omega)
    (by simp only [accumInit, INITIAL_CAPACITY, MAX_HTTP_RESPONSE_SIZE]; omega)
    (by simp only [accumInit, List.length_nil]; omega)
  rw [hstep]

/-- With two 20000-byte chunks (total 40000 > ceiling) the retained
content is 20000 bytes, not the first 32768 bytes of the concatenation. -/
theorem two_big_chunks_drop_second :
    MAX_HTTP_RESPONSE_SIZE <
        [List.replicate 20000 1, List.replicate 20000 2].flatten.length ∧
      (accumRun [List.replicate 20000 1, List.replicate 20000 2]).data ≠
        List.take MAX_HTTP_RESPONSE_SIZE
          [List.replicate 20000 1, List.replicate 20000 2].flatten := by
  constructor
  · rw [List.flatten_cons, List.flatten_cons, List.flatten_nil,
      List.append_nil, List.length_append, List.length_replicate,
      List.length_replicate, MAX_HTTP_RESPONSE_SIZE]
    norm_num
  · intro heq
    have hlen := congrArg List.length heq
    have hd := (accumRun_two_big (List.replicate 20000 1)
      (List.replicate 20000 2) (by simp only [List.length_replicate])
      (by simp only [List.length_replicate])).1
    rw [hd, List.length_take, List.flatten_cons, List.flatten_cons,
      List.flatten_nil, List.append_nil, List.length_append,
      List.length_replicate, List.length_replicate,
      MAX_HTTP_RESPONSE_SIZE] at hlen
    norm_num [inf_eq_min, Nat.min_def] at hlen


/-- **C2, counterexample.**  Two 20000-byte chunks have total
40000 > 32768, yet the retained buffer (20000 bytes — the second chunk is
dropped whole) is not the first 32768 bytes of the concatenation; and for
a 32768-byte chunk followed by one more byte an out-of-bounds store
occurs, refuting the no-out-of-bounds-write conjunct. -/
theorem C2_counterexample :
    (MAX_HTTP_RESPONSE_SIZE <
        [List.replicate 20000 1, List.replicate 20000 2].flatten.length ∧
      (accumRun [List.replicate 20000 1, List.replicate 20000 2]).data ≠
        List.take MAX_HTTP_RESPONSE_SIZE
          [List.replicate 20000 1, List.replicate 20000 2].flatten) ∧
    (MAX_HTTP_RESPONSE_SIZE <
        [List.replicate MAX_HTTP_RESPONSE_SIZE 1, [2]].flatten.length ∧
      (accumRun [List.replicate MAX_HTTP_RESPONSE_SIZE 1, [2]]).oob = true) := by
  have hblen : MAX_HTTP_RESPONSE_SIZE <
      [List.replicate MAX_HTTP_RESPONSE_SIZE 1, [2]].flatten.length := by
    rw [List.flatten_cons, List.flatten_cons, List.flatten_nil,
      List.append_nil, List.length_append, List.length_replicate]
    norm_num [MAX_HTTP_RESPONSE_SIZE]
  exact ⟨two_big_chunks_drop_second,
    hblen,
    accumRun_boundary_then_drop (List.replicate MAX_HTTP_RESPONSE_SIZE 1) [2]
      (by rw [List.length_replicate])⟩

/-- On a non-chunked data event the handler runs the accumulator step and
returns `ESP_OK`. -/
theorem http_event_handler_on_data (r : HttpResponse) (c : List Nat)
    (ok : Bool) : http_event_handler r false c ok = (accumStepA r c ok, ESP_OK) :=
  rfl

/-- **C2 (amended: whole-chunk dropping; in-bounds runs stay below the
ceiling).**  For chunk sequences whose total exceeds the ceiling, the
retained content is the concatenation of an order-preserving subsequence
of the chunks (dropping happens at whole-chunk granularity, so the
retained content is in general shorter than the ceiling and not its
exact prefix), and whenever no out-of-bounds store has happened the
retained length is strictly below the ceiling. -/
theorem C2_chunk_granularity_drop (chunks : List (List Nat))
    (h : MAX_HTTP_RESPONSE_SIZE < chunks.flatten.length) :
    (∃ kept : List (List Nat), kept.Sublist chunks ∧
        (accumRun chunks).data = kept.flatten) ∧
      ((accumRun chunks).oob = false →
        (accumRun chunks).data.length < MAX_HTTP_RESPONSE_SIZE) := by
  constructor
  · obtain ⟨kept, hk, hd⟩ := foldl_data_sublist chunks accumInit
    exact ⟨kept, hk, by simpa [accumRun, accumInit] using hd⟩
  · obtain ⟨h1, h2⟩ := foldl_oob_inv chunks accumInit
      (fun _ => by decide) (by decide)
    intro ho
    exact Nat.lt_of_lt_of_le (h1 ho) h2

/-- Witness for C2 at two concrete 20000-byte chunks. -/
theorem C2_chunk_granularity_drop_witness :
    MAX_HTTP_RESPONSE_SIZE <
        [List.replicate 20000 1, List.replicate 20000 2].flatten.length ∧
      ((∃ kept : List (List Nat),
          kept.Sublist [List.replicate 20000 1, List.replicate 20000 2] ∧
          (accumRun [List.replicate 20000 1, List.replicate 20000 2]).data =
            kept.flatten) ∧
        ((accumRun [List.replicate 20000 1, List.replicate 20000 2]).oob =
            false →
          (accumRun
              [List.replicate 20000 1, List.replicate 20000 2]).data.length <
            MAX_HTTP_RESPONSE_SIZE)) := by
  have hlen : MAX_HTTP_RESPONSE_SIZE <
      [List.replicate 20000 1, List.replicate 20000 2].flatten.length := by
    rw [List.flatten_cons, List.flatten_cons, List.flatten_nil,
      List.append_nil, List.length_append, List.length_replicate,
      List.length_replicate, MAX_HTTP_RESPONSE_SIZE]
    norm_num
  exact ⟨hlen, C2_chunk_granularity_drop _ hlen⟩

/-- **C5 (amended: realloc failure drops the chunk and continues).**  If
reallocation fails at a growth step, the chunk is dropped, the handler
returns `ESP_OK`, and no out-of-memory signal reaches the caller;
accumulation continues with subsequent chunks. -/
theorem C5_realloc_failure_drops (r : HttpResponse) (c : List Nat)
    (h : r.capacity ≤ r.data.length + c.length) :
    http_event_handler r false c false = (r, ESP_OK) := by
  rw [http_event_handler_on_data, accumStepA_allocFail r c h]

/-- **C5, counterexample.**  When `realloc` fails on a growth step, the
handler still returns `ESP_OK`, the state is unchanged (the chunk is
silently skipped rather than accumulation aborting with an out-of-memory
signal), and a subsequent chunk is appended normally. -/
theorem C5_counterexample :
    (http_event_handler accumInit false (List.replicate 5000 1) false).2 =
        ESP_OK ∧
      (http_event_handler accumInit false (List.replicate 5000 1) false).1 =
        accumInit ∧
      (http_event_handler
          (http_event_handler accumInit false (List.replicate 5000 1) false).1
          false [1, 2, 3] true).1.data = [1, 2, 3] := by
  have hs : accumStepA accumInit (List.replicate 5000 1) false = accumInit :=
    accumStepA_allocFail accumInit (List.replicate 5000 1)
      (by rw [List.length_replicate]
          simp only [accumInit, INITIAL_CAPACITY, List.length_nil]
          norm_num)
  have h1 : http_event_handler accumInit false (List.replicate 5000 1) false =
      (accumInit, ESP_OK) := by
    rw [http_event_handler_on_data, hs]
  refine ⟨by rw [h1], by rw [h1], ?_⟩
  rw [h1]
  decide

/-- Witness for C5 at the initial state and a 5000-byte chunk. -/
theorem C5_realloc_failure_drops_witness :
    accumInit.capacity ≤
        accumInit.data.length + (List.replicate 5000 1).length ∧
      http_event_handler accumInit false (List.replicate 5000 1) false =
        (accumInit, ESP_OK) := by
  have h : accumInit.capacity ≤
      accumInit.data.length + (List.replicate 5000 1).length := by
    rw [List.length_replicate]
    simp only [accumInit, INITIAL_CAPACITY, List.length_nil]
    norm_num
  exact ⟨h, C5_realloc_failure_drops accumInit (List.replicate 5000 1) h⟩

/-- **C6.**  No step ever reduces the capacity; a step that changes the
capacity at all grows it strictly and is the reallocation/append path;
and along a run capacity is monotone over prefixes. -/
theorem C6_capacity_monotone :
    (∀ (r : HttpResponse) (c : List Nat) (ok : Bool),
        r.capacity ≤ (accumStepA r c ok).capacity) ∧
      (∀ (r : HttpResponse) (c : List Nat) (ok : Bool),
        (accumStepA r c ok).capacity ≠ r.capacity →
          r.capacity < (accumStepA r c ok).capacity ∧
            (accumStepA r c ok).data = r.data ++ c) ∧
      (∀ chunks p : List (List Nat), p <+: chunks →
        (accumRun p).capacity ≤ (accumRun chunks).capacity) := by
  refine ⟨accumStepA_capacity_mono, accumStepA_capacity_change, ?_⟩
  rintro chunks p ⟨t, ht⟩
  have : accumRun (p ++ t) = t.foldl accumStep (accumRun p) := by
    rw [accumRun, accumRun, List.foldl_append]
  calc (accumRun p).capacity
      ≤ (t.foldl accumStep (accumRun p)).capacity := foldl_capacity_mono t _
    _ = (accumRun (p ++ t)).capacity := by rw [this]
    _ = (accumRun chunks).capacity := by rw [ht]

/-- Witness for C6 at concrete states and chunk sequences. -/
theorem C6_capacity_monotone_witness :
    accumInit.capacity ≤ (accumStepA accumInit [1] true).capacity ∧
      (10 < (accumStepA { data := [], capacity := 10, oob := false }
          (List.replicate 10 1) true).capacity ∧
        (accumStepA { data := [], capacity := 10, oob := false }
            (List.replicate 10 1) true).data =
          ([] : List Nat) ++ List.replicate 10 1) ∧
      (accumRun [[1]]).capacity ≤ (accumRun [[1], [2]]).capacity := by
  refine ⟨C6_capacity_monotone.1 accumInit [1] true, ?_,
    C6_capacity_monotone.2.2 [[1], [2]] [[1]] ⟨[[2]], rfl⟩⟩
  exact C6_capacity_monotone.2.1 { data := [], capacity := 10, oob := false }
    (List.replicate 10 1) true (by decide)

/-- **C3, counterexample.**  The code maps every status 500 or above to
the server error, so status 600 — which the claim places in the every-
other-status bucket — yields `server`, not `other`. -/
theorem C3_counterexample :
    classify_http_outcome ESP_OK 600 = AgentmailErr.server ∧
      AgentmailErr.server ≠ AgentmailErr.other := by
  decide

/-- **C3 (amended: the server bucket is every status at least 500).**  On
transport success, 200-299 yields no error, 401 and 403 yield the auth
error, 404 not-found, 429 rate-limit, every status at least 500 (not
only 500-599) the server error, and every remaining status (below 500
and none of the above) the other-error. -/
theorem C3_status_code_mapping (s : Int) :
    (200 ≤ s ∧ s < 300 → classify_http_outcome ESP_OK s = .none) ∧
      (s = 401 ∨ s = 403 → classify_http_outcome ESP_OK s = .auth) ∧
      (s = 404 → classify_http_outcome ESP_OK s = .notFound) ∧
      (s = 429 → classify_http_outcome ESP_OK s = .rateLimit) ∧
      (500 ≤ s → classify_http_outcome ESP_OK s = .server) ∧
      (¬(200 ≤ s ∧ s < 300) → s ≠ 401 → s ≠ 403 → s ≠ 404 → s ≠ 429 →
        s < 500 → classify_http_outcome ESP_OK s = .other) := by
  have hc : classify_http_outcome ESP_OK s = map_status_code s := by
    simp [classify_http_outcome]
  rw [hc]
  simp only [map_status_code]
  refine ⟨?_, ?_, ?_, ?_, ?_, ?_⟩ <;>
    (intros; split_ifs <;> first | rfl | omega | (exfalso; omega))

/-- Witness for C3 at statuses 250, 401, 403, 404, 429, 503, 302. -/
theorem C3_status_code_mapping_witness :
    classify_http_outcome ESP_OK 250 = .none ∧
      classify_http_outcome ESP_OK 401 = .auth ∧
      classify_http_outcome ESP_OK 403 = .auth ∧
      classify_http_outcome ESP_OK 404 = .notFound ∧
      classify_http_outcome ESP_OK 429 = .rateLimit ∧
      classify_http_outcome ESP_OK 503 = .server ∧
      classify_http_outcome ESP_OK 302 = .other :=
  ⟨(C3_status_code_mapping 250).1 (by decide),
   (C3_status_code_mapping 401).2.1 (Or.inl rfl),
   (C3_status_code_mapping 403).2.1 (Or.inr rfl),
   (C3_status_code_mapping 404).2.2.1 rfl,
   (C3_status_code_mapping 429).2.2.2.1 rfl,
   (C3_status_code_mapping 503).2.2.2.2.1 (by decide),
   (C3_status_code_mapping 302).2.2.2.2.2 (by decide) (by decide) (by decide) (by decide)
     (by decide) (by decide)⟩

/-- **C4.**  A transport timeout yields the timeout error regardless of
the status code, every other transport failure yields the network error,
and the status mapping is applied exactly when the transport succeeded
(`ESP_OK`). -/
theorem C4_transport_outcome :
    (∀ s : Int, classify_http_outcome ESP_ERR_TIMEOUT s = .timeout) ∧
      (∀ e s : Int, e ≠ ESP_OK → e ≠ ESP_ERR_TIMEOUT →
        classify_http_outcome e s = .network) ∧
      (∀ s : Int, classify_http_outcome ESP_OK s = map_status_code s) := by
  refine ⟨fun s => ?_, fun e s he ht => ?_, fun s => ?_⟩
  · simp [classify_http_outcome, ESP_ERR_TIMEOUT, ESP_OK]
  · simp [classify_http_outcome, he, ht]
  · simp [classify_http_outcome]

/-- Witness for C4 at concrete transport results and status codes. -/
theorem C4_transport_outcome_witness :
    classify_http_outcome ESP_ERR_TIMEOUT 200 = .timeout ∧
      classify_http_outcome 5 200 = .network ∧
      classify_http_outcome ESP_OK 404 = map_status_code 404 :=
  ⟨C4_transport_outcome.1 200, C4_transport_outcome.2.1 5 200 (by decide) (by decide), C4_transport_outcome.2.2 404⟩

/-- A lookup result that is not a JSON string leaves the field NULL. -/
theorem asString_eq_none (o : Option Json)
    (h : ∀ s, o ≠ some (Json.str s)) : asString o = none := by
  cases o with
  | none => rfl
  | some v => cases v <;> first | rfl | exact absurd rfl (h _)

/-- A lookup result that is not a JSON bool leaves the field false. -/
theorem asBool_eq_false (o : Option Json)
    (h : ∀ b, o ≠ some (Json.bool b)) : asBool o = false := by
  cases o with
  | none => rfl
  | some v => cases v <;> first | rfl | exact absurd rfl (h _)

/-- A metadata item that is neither a string nor an object leaves the
metadata field NULL. -/
theorem metadata_match_none (o : Option Json)
    (h1 : ∀ s, o ≠ some (Json.str s))
    (h2 : ∀ fs, o ≠ some (Json.obj fs)) :
    (match o with
     | some (.str s) => some s
     | some (.obj fields) => some (Json.print (.obj fields))
     | _ => (none : Option String)) = none := by
  cases o with
  | none => rfl
  | some v =>
      cases v <;>
        first
          | rfl
          | exact absurd rfl (h1 _)
          | exact absurd rfl (h2 _)

/-- **C7.**  Decoding an inbox or message record from parsed JSON is
best-effort: the operation returns `AGENTMAIL_ERR_NONE` whenever the body
parsed, and each named field that is absent or not of the expected JSON
type is left in its zero state (`none` for strings, `false` for
`is_read`, with `metadata` accepting string or object). -/
theorem C7_lenient_decode (j : Json) :
    (agentmail_inbox_decode_result (some j)).1 = AgentmailErr.none ∧
      (agentmail_message_get_result (some j)).1 = AgentmailErr.none ∧
      ((∀ s, getObjectItem j "inbox_id" ≠ some (.str s)) →
        (decode_inbox j).inbox_id = none) ∧
      ((∀ s, getObjectItem j "address" ≠ some (.str s)) →
        (decode_inbox j).email_address = none) ∧
      ((∀ s, getObjectItem j "name" ≠ some (.str s)) →
        (decode_inbox j).name = none) ∧
      ((∀ s, getObjectItem j "created_at" ≠ some (.str s)) →
        (decode_inbox j).created_at = none) ∧
      ((∀ s, getObjectItem j "metadata" ≠ some (.str s)) →
        (∀ fs, getObjectItem j "metadata" ≠ some (.obj fs)) →
        (decode_inbox j).metadata = none) ∧
      ((∀ s, getObjectItem j "message_id" ≠ some (.str s)) →
        (decode_message_get j).message_id = none) ∧
      ((∀ s, getObjectItem j "thread_id" ≠ some (.str s)) →
        (decode_message_get j).thread_id = none) ∧
      ((∀ s, getObjectItem j "from" ≠ some (.str s)) →
        (decode_message_get j).«from» = none) ∧
      ((∀ s, getObjectItem j "to" ≠ some (.str s)) →
        (decode_message_get j).«to» = none) ∧
      ((∀ s, getObjectItem j "subject" ≠ some (.str s)) →
        (decode_message_get j).subject = none) ∧
      ((∀ s, getObjectItem j "text" ≠ some (.str s)) →
        (decode_message_get j).body_text = none) ∧
      ((∀ s, getObjectItem j "html" ≠ some (.str s)) →
        (decode_message_get j).body_html = none) ∧
      ((∀ s, getObjectItem j "created_at" ≠ some (.str s)) →
        (decode_message_get j).timestamp = none) ∧
      ((∀ b, getObjectItem j "is_read" ≠ some (.bool b)) →
        (decode_message_get j).is_read = false) := by
  refine ⟨rfl, rfl, fun h => asString_eq_none _ h, fun h => asString_eq_none _ h,
    fun h => asString_eq_none _ h, fun h => asString_eq_none _ h,
    fun h1 h2 => metadata_match_none _ h1 h2,
    fun h => asString_eq_none _ h, fun h => asString_eq_none _ h,
    fun h => asString_eq_none _ h, fun h => asString_eq_none _ h,
    fun h => asString_eq_none _ h, fun h => asString_eq_none _ h,
    fun h => asString_eq_none _ h, fun h => asString_eq_none _ h,
    fun h => asBool_eq_false _ h⟩

/-- Witness for C7 at the empty JSON object (every field absent). -/
theorem C7_lenient_decode_witness :
    (agentmail_inbox_decode_result (some (Json.obj []))).1 =
        AgentmailErr.none ∧
      (agentmail_message_get_result (some (Json.obj []))).1 =
        AgentmailErr.none ∧
      (decode_inbox (Json.obj [])).inbox_id = none ∧
      (decode_inbox (Json.obj [])).email_address = none ∧
      (decode_inbox (Json.obj [])).name = none ∧
      (decode_inbox (Json.obj [])).created_at = none ∧
      (decode_inbox (Json.obj [])).metadata = none ∧
      (decode_message_get (Json.obj [])).message_id = none ∧
      (decode_message_get (Json.obj [])).is_read = false := by
  have h := C7_lenient_decode (Json.obj [])
  have hs : ∀ (k : String) (s : String),
      getObjectItem (Json.obj []) k ≠ some (Json.str s) := by
    intro k s
    simp [getObjectItem]
  have hob : ∀ (k : String) (fs : List (String × Json)),
      getObjectItem (Json.obj []) k ≠ some (Json.obj fs) := by
    intro k fs
    simp [getObjectItem]
  have hb : ∀ (k : String) (b : Bool),
      getObjectItem (Json.obj []) k ≠ some (Json.bool b) := by
    intro k b
    simp [getObjectItem]
  exact ⟨h.1, h.2.1, h.2.2.1 (hs _), h.2.2.2.1 (hs _), h.2.2.2.2.1 (hs _),
    h.2.2.2.2.2.1 (hs _), h.2.2.2.2.2.2.1 (hs _) (hob _),
    h.2.2.2.2.2.2.2.1 (hs _),
    h.2.2.2.2.2.2.2.2.2.2.2.2.2.2.2 (hb _)⟩

/-- When the named field holds an array, that array is selected. -/
theorem selectCollection_named (j : Json) (key : String) (xs : List Json)
    (h : getObjectItem j key = some (.arr xs)) :
    selectCollection j key = .arr xs := by
  simp [selectCollection, h, Json.isArray]

/-- When the named field is absent or not an array, the whole response
value is selected. -/
theorem selectCollection_fallback (j : Json) (key : String)
    (h : ∀ xs, getObjectItem j key ≠ some (.arr xs)) :
    selectCollection j key = j := by
  cases hx : getObjectItem j key with
  | none => simp [selectCollection, hx]
  | some d =>
      cases d <;> first
        | exact absurd hx (h _)
        | simp [selectCollection, hx, Json.isArray]

/-- **C8, counterexample.**  The inbox-list element decoder does not
follow the same per-record rules as the single-inbox decode: on an
element whose only field is a string `metadata`, the list element comes
out all-zero while the single-inbox decode populates `metadata`. -/
theorem C8_counterexample :
    (agentmail_inbox_list_decode
        (Json.obj [("inboxes",
          Json.arr [Json.obj [("metadata", Json.str "m")]])])).inboxes =
      some [emptyInbox] ∧
    decode_inbox (Json.obj [("metadata", Json.str "m")]) ≠ emptyInbox := by
  constructor
  · rfl
  · intro h
    have hm := congrArg AgentmailInbox.metadata h
    simp [decode_inbox, getObjectItem, emptyInbox] at hm

/-- **C8 (amended: inbox-list elements skip `metadata`).**  List decodes
first look up the named collection field and fall back to treating the
whole response value as the array when it is absent or not an array;
each element is decoded independently — message-list elements with
exactly the single-message rules, inbox-list elements with the
single-inbox rules except that `metadata` is never populated. -/
theorem C8_list_decode_fallback (j : Json) :
    (∀ xs, getObjectItem j "inboxes" = some (.arr xs) →
      (agentmail_inbox_list_decode j).inboxes =
          (if xs.length > 0 then some (xs.map decode_inbox_list_item)
           else none) ∧
        (agentmail_inbox_list_decode j).count = xs.length) ∧
    (∀ xs, getObjectItem j "messages" = some (.arr xs) →
      (agentmail_messages_get_decode j).messages =
          (if xs.length > 0 then some (xs.map decode_message_list_item)
           else none) ∧
        (agentmail_messages_get_decode j).count = xs.length) ∧
    (∀ ys, (∀ xs, getObjectItem j "inboxes" ≠ some (.arr xs)) →
      j = .arr ys →
      (agentmail_inbox_list_decode j).inboxes =
          (if ys.length > 0 then some (ys.map decode_inbox_list_item)
           else none) ∧
        (agentmail_inbox_list_decode j).count = ys.length) ∧
    (∀ ys, (∀ xs, getObjectItem j "messages" ≠ some (.arr xs)) →
      j = .arr ys →
      (agentmail_messages_get_decode j).messages =
          (if ys.length > 0 then some (ys.map decode_message_list_item)
           else none) ∧
        (agentmail_messages_get_decode j).count = ys.length) ∧
    ((∀ xs, getObjectItem j "inboxes" ≠ some (.arr xs)) →
      (∀ ys, j ≠ .arr ys) →
      (agentmail_inbox_list_decode j).inboxes = none ∧
        (agentmail_inbox_list_decode j).count = 0) ∧
    (decode_message_list_item j = decode_message_get j) ∧
    (decode_inbox_list_item j = { decode_inbox j with metadata := none }) := by
  refine ⟨?_, ?_, ?_, ?_, ?_, rfl, ?_⟩
  · intro xs hx
    have hsel := selectCollection_named j "inboxes" xs hx
    simp only [agentmail_inbox_list_decode, hsel]
    cases xs with
    | nil => exact ⟨rfl, rfl⟩
    | cons a as => simp
  · intro xs hx
    have hsel := selectCollection_named j "messages" xs hx
    simp only [agentmail_messages_get_decode, hsel]
    cases xs with
    | nil => exact ⟨rfl, rfl⟩
    | cons a as => simp
  · intro ys hno hj
    subst hj
    have hsel := selectCollection_fallback _ "inboxes" hno
    simp only [agentmail_inbox_list_decode, hsel]
    cases ys with
    | nil => exact ⟨rfl, rfl⟩
    | cons a as => simp
  · intro ys hno hj
    subst hj
    have hsel := selectCollection_fallback _ "messages" hno
    simp only [agentmail_messages_get_decode, hsel]
    cases ys with
    | nil => exact ⟨rfl, rfl⟩
    | cons a as => simp
  · intro hno harr
    have hsel := selectCollection_fallback j "inboxes" hno
    simp only [agentmail_inbox_list_decode, hsel]
    cases j with
    | arr items => exact (harr items rfl).elim
    | null => trivial
    | bool b => trivial
    | num n => trivial
    | str s => trivial
    | obj fields => trivial
  · simp [decode_inbox_list_item, decode_inbox]

/-- Witness for C8 at concrete named-field, root-array and non-array
responses. -/
theorem C8_list_decode_fallback_witness :
    ((agentmail_inbox_list_decode
        (Json.obj [("inboxes", Json.arr [])])).inboxes = none ∧
      (agentmail_inbox_list_decode
        (Json.obj [("inboxes", Json.arr [])])).count = 0) ∧
    ((agentmail_messages_get_decode
        (Json.obj [("messages", Json.arr [Json.null])])).messages =
        some [decode_message_list_item Json.null] ∧
      (agentmail_messages_get_decode
        (Json.obj [("messages", Json.arr [Json.null])])).count = 1) ∧
    ((agentmail_inbox_list_decode (Json.arr [Json.null])).inboxes =
        some [decode_inbox_list_item Json.null] ∧
      (agentmail_inbox_list_decode (Json.arr [Json.null])).count = 1) ∧
    ((agentmail_inbox_list_decode Json.null).inboxes = none ∧
      (agentmail_inbox_list_decode Json.null).count = 0) ∧
    decode_message_list_item Json.null = decode_message_get Json.null ∧
    decode_inbox_list_item Json.null =
      { decode_inbox Json.null with metadata := none } := by
  have h1 := (C8_list_decode_fallback (Json.obj [("inboxes", Json.arr [])])).1 [] rfl
  have h2 := (C8_list_decode_fallback (Json.obj [("messages", Json.arr [Json.null])])).2.1
    [Json.null] rfl
  have h3 := (C8_list_decode_fallback (Json.arr [Json.null])).2.2.1 [Json.null]
    (by intro xs; simp [getObjectItem]) rfl
  have h4 := (C8_list_decode_fallback Json.null).2.2.2.2.1
    (by intro xs; simp [getObjectItem]) (by intro ys; simp)
  have h5 := (C8_list_decode_fallback Json.null).2.2.2.2.2.1
  have h6 := (C8_list_decode_fallback Json.null).2.2.2.2.2.2
  exact ⟨⟨h1.1, h1.2⟩, ⟨h2.1, h2.2⟩, ⟨h3.1, h3.2⟩, h4, h5, h6⟩

/-- **C10.**  After a successful round trip, `agentmail_send` and
`agentmail_send_reply` return `AGENTMAIL_ERR_NONE` even when the body
does not parse or has no string `message_id`, and the caller's
out-pointer is left unwritten. -/
theorem C10_send_missing_id_lenient (outGiven : Bool) (parsed : Option Json)
    (h : ∀ j, parsed = some j →
      ∀ s, getObjectItem j "message_id" ≠ some (Json.str s)) :
    agentmail_send_tail outGiven parsed = (AgentmailErr.none, none) ∧
      agentmail_send_reply_tail outGiven parsed =
        (AgentmailErr.none, none) := by
  have hrep : agentmail_send_reply_tail outGiven parsed =
      agentmail_send_tail outGiven parsed := rfl
  suffices hs : agentmail_send_tail outGiven parsed =
      (AgentmailErr.none, none) by
    exact ⟨hs, hrep.trans hs⟩
  cases outGiven with
  | false => rfl
  | true =>
      cases parsed with
      | none => rfl
      | some j =>
          simp only [agentmail_send_tail, if_true]
          cases hx : getObjectItem j "message_id" with
          | none => rfl
          | some v =>
              cases v <;> first
                | exact absurd hx (h j rfl _)
                | rfl

/-- Witness for C10 at a parsed empty object with the out-pointer
supplied. -/
theorem C10_send_missing_id_lenient_witness :
    agentmail_send_tail true (some (Json.obj [])) =
        (AgentmailErr.none, none) ∧
      agentmail_send_reply_tail true (some (Json.obj [])) =
        (AgentmailErr.none, none) :=
  C10_send_missing_id_lenient true (some (Json.obj []))
    (by intro j hj s
        cases hj
        simp [getObjectItem])

/-- **C9.**  Each free operation is a no-op on NULL, zeroes every field
of the record on a non-NULL argument, and calling it again on the
zeroed result releases nothing (no pointer is ever released twice). -/
theorem C9_free_zero_and_refree :
    (agentmail_inbox_free none = (none, []) ∧
      agentmail_message_free none = (none, []) ∧
      agentmail_inbox_list_free none = (none, []) ∧
      agentmail_message_list_free none = (none, [])) ∧
    (∀ i, (agentmail_inbox_free (some i)).1 = some emptyInbox) ∧
    (∀ m, (agentmail_message_free (some m)).1 = some emptyMessage) ∧
    (∀ l, (agentmail_inbox_list_free (some l)).1 = some emptyInboxList) ∧
    (∀ l, (agentmail_message_list_free (some l)).1 = some emptyMessageList) ∧
    (∀ i, (agentmail_inbox_free (agentmail_inbox_free (some i)).1).2 = []) ∧
    (∀ m,
      (agentmail_message_free (agentmail_message_free (some m)).1).2 = []) ∧
    (∀ l,
      (agentmail_inbox_list_free
        (agentmail_inbox_list_free (some l)).1).2 = []) ∧
    (∀ l,
      (agentmail_message_list_free
        (agentmail_message_list_free (some l)).1).2 = []) :=
  ⟨⟨rfl, rfl, rfl, rfl⟩, fun _ => rfl, fun _ => rfl, fun _ => rfl,
    fun _ => rfl, fun _ => rfl, fun _ => rfl, fun _ => rfl, fun _ => rfl⟩
end Agentmail
